import Mathlib

/-!
Shallow embedding of the exchange-integration core of the mmb trading engine.

Embedded source files:
- `src/exchanges/binance/src/exchange_client.rs` — the Binance `ExchangeClient`
  implementation (`get_order_info`, `get_my_trades`, `close_position`,
  `get_active_positions`) and the listen-key session machinery
  (`receive_listen_key`, `ping_listen_key`).
- `src/src/core/exchanges/actor.rs` — the `ExchangeActor` connectivity router
  (`create_websocket_params`, the `GetWebSocketParams` handler).

External collaborators (the adapter transport `request_*` calls, serde payload
deserialization, the canonical-type parsing helpers in `support.rs`) are
modelled as oracle parameters: each embedded function is quantified over every
possible outcome of the collaborator it invokes, exactly at the interface the
source consumes.  Rust panics (`panic!`, `unreachable!`, `.expect`) are made
visible as explicit outcome constructors, since several claims are about which
of those branches can execute.
-/

namespace Mmb

/-- The request categories used as rate-budget keys, from
`mmb_core::exchanges::general::request_type::RequestType` as consumed by
`exchange_client.rs` (only the variants the embedded code mentions matter). -/
inductive RequestType where
  | CreateOrder
  | CancelOrder
  | GetOpenOrders
  | GetOrderInfo
  | GetMyTrades
  | GetBalance
  | GetActivePositions
  | GetListenKey
  | UpdateListenKey
  deriving DecidableEq, Repr

/-- Error kinds of `mmb_core::exchanges::common::ExchangeErrorType`.
`SendError` is the transport-failure kind, `ParsingError` the
payload-parsing-failure kind. -/
inductive ExchangeErrorType where
  | Unknown
  | SendError
  | RateLimit
  | OrderNotFound
  | OrderCompleted
  | InsufficientFunds
  | InvalidOrder
  | Authentication
  | ParsingError
  | PendingError
  | ServiceUnavailable
  deriving DecidableEq, Repr

/-- `mmb_core::exchanges::common::ExchangeError` (the fields the embedded code
constructs: error type, message, optional code). -/
structure ExchangeError where
  error_type : ExchangeErrorType
  message : String
  code : Option Int
  deriving DecidableEq, Repr

/-- `ExchangeError::new(error_type, message, code)`. -/
def ExchangeError.new (error_type : ExchangeErrorType) (message : String)
    (code : Option Int) : ExchangeError :=
  ⟨error_type, message, code⟩

/-- `ExchangeError::unknown(message)`: an error of kind `Unknown`. -/
def ExchangeError.unknown (message : String) : ExchangeError :=
  ExchangeError.new ExchangeErrorType.Unknown message none

/-- The REST response wrapper (`RestRequestOutcome`): the embedded code only
reads its `content` string. -/
structure RestRequestOutcome where
  content : String
  deriving DecidableEq, Repr

/-- `mmb_core::exchanges::general::exchange::RequestResult<T>`:
success payload or a typed exchange error, inside a successful outer call. -/
inductive RequestResult (α : Type) where
  | Success (a : α)
  | Error (e : ExchangeError)
  deriving DecidableEq, Repr

/-- Outcome of a Rust function that can return `Ok`, return `Err`, or panic.
The panic constructor records the panic message, so claims about panic
branches being (un)reachable can be stated directly. -/
inductive RustOutcome (ε α : Type) where
  | ok (a : α)
  | err (e : ε)
  | panicked (msg : String)
  deriving DecidableEq, Repr

/-! ## Order Lifecycle Glue: `exchange_client.rs` request/parse plumbing -/

/-- `ExchangeClient::get_order_info` for Binance
(`exchange_client.rs` lines 90-99): on a successful request, parse the
response (`parse_order_info` is infallible in its signature); on a request
failure, return an `ExchangeError` of kind `ParsingError` carrying the
stringified error.  `request_order_info` and `parse_order_info` are external
collaborators, passed as oracles. -/
def get_order_info {OrderInfo : Type}
    (request_order_info : Except String RestRequestOutcome)
    (parse_order_info : RestRequestOutcome → OrderInfo) :
    Except ExchangeError OrderInfo :=
  match request_order_info with
  | Except.ok request_outcome => Except.ok (parse_order_info request_outcome)
  | Except.error error =>
      Except.error (ExchangeError.new ExchangeErrorType.ParsingError error none)

/-- `ExchangeClient::get_my_trades` for Binance
(`exchange_client.rs` lines 136-155): both failure shapes are folded into an
`Ok(RequestResult::Error ...)` — a parse failure becomes an `Unknown`-kind
error carrying the raw response content, a request failure becomes a
`ParsingError`-kind error carrying the stringified request error. -/
def get_my_trades {OrderTrade : Type}
    (request_my_trades : Except String RestRequestOutcome)
    (parse_get_my_trades : RestRequestOutcome → Except String (List OrderTrade)) :
    Except String (RequestResult (List OrderTrade)) :=
  match request_my_trades with
  | Except.ok response =>
      match parse_get_my_trades response with
      | Except.ok data => Except.ok (RequestResult.Success data)
      | Except.error _ =>
          Except.ok (RequestResult.Error (ExchangeError.unknown response.content))
  | Except.error error =>
      Except.ok (RequestResult.Error
        (ExchangeError.new ExchangeErrorType.ParsingError error none))

/-- The subset of `BinanceOrderInfo` fields `close_position` reads
(`support.rs` is an external collaborator; its deserialization is an oracle,
but the field projection is written in the embedded function itself). -/
structure BinanceOrderInfo where
  exchange_order_id : Int
  orig_quantity : Int
  deriving DecidableEq, Repr

/-- `ClosedPosition` as constructed by `close_position`: the exchange order id
rendered to a string, and the original quantity. -/
structure ClosedPosition where
  exchange_order_id : String
  amount : Int
  deriving DecidableEq, Repr

/-- `ExchangeClient::close_position` for Binance
(`exchange_client.rs` lines 101-114): a request failure propagates as `Err`
via `?`; the response content is then fed to `serde_json::from_str` whose
failure is handled with `.expect(...)`, i.e. a panic with the given message
(note the message names `get_open_orders`, copied from elsewhere).
`serde_json::from_str` is the deserialization oracle `from_str`. -/
def close_position
    (request_close_position : Except String RestRequestOutcome)
    (from_str : String → Option BinanceOrderInfo) :
    RustOutcome String ClosedPosition :=
  match request_close_position with
  | Except.error e => RustOutcome.err e
  | Except.ok response =>
      match from_str response.content with
      | none =>
          RustOutcome.panicked
            "Unable to parse response content for get_open_orders request"
      | some binance_order =>
          RustOutcome.ok
            ⟨toString binance_order.exchange_order_id, binance_order.orig_quantity⟩

/-- `ExchangeClient::get_active_positions` for Binance
(`exchange_client.rs` lines 116-125): a request failure propagates as `Err`;
deserialization failure of the payload is handled with `.expect(...)`, a
panic; on success every deserialized position is mapped through the
(external) `binance_position_to_active_position`. -/
def get_active_positions {BinancePosition ActivePosition : Type}
    (request_get_position : Except String RestRequestOutcome)
    (from_str : String → Option (List BinancePosition))
    (binance_position_to_active_position : BinancePosition → ActivePosition) :
    RustOutcome String (List ActivePosition) :=
  match request_get_position with
  | Except.error e => RustOutcome.err e
  | Except.ok response =>
      match from_str response.content with
      | none =>
          RustOutcome.panicked
            "Unable to parse response content for get_active_positions_core request"
      | some binance_positions =>
          RustOutcome.ok (binance_positions.map binance_position_to_active_position)

/-! ## Session Keep-Alive Manager: `receive_listen_key` / `ping_listen_key` -/

/-- Observable steps of the listen-key acquisition loop: an awaited admission
reservation (`timeout_manager.reserve_when_available`), an invocation of
`get_listen_key` at a given attempt index, and a per-failure warning log. -/
inductive SessionEvent where
  | reserve (account : String) (kind : RequestType)
  | getListenKey (attempt : Nat)
  | warn (attempt : Nat) (err : String)
  deriving DecidableEq, Repr

/-- How `receive_listen_key` ends: returning a listen key, the explicit
`panic!` branch (recording the attempt and error it would report), or the
trailing `unreachable!()` after the `for` loop. -/
inductive ListenKeyOutcome where
  | key (k : String)
  | panicked (attempt : Nat) (err : String)
  | unreachableReached
  deriving DecidableEq, Repr

/-- `MAX_ATTEMPTS_COUNT` from `receive_listen_key`. -/
def MAX_ATTEMPTS_COUNT : Nat := 10

/-- The body of `receive_listen_key`'s `for attempt in 0..MAX_ATTEMPTS_COUNT`
loop, with `fuel` the number of loop iterations remaining (`fuel = 0` means
the range is exhausted and control falls through to `unreachable!()`).
Each iteration awaits admission for `(account, GetListenKey)`, calls
`get_listen_key` (oracle `outcomes`, indexed by attempt), and on error takes
the warn branch when `attempt < MAX_ATTEMPTS_COUNT` and the `panic!` branch
otherwise — exactly the source's guard, including its off-by-one. -/
def receive_listen_key_go (account : String)
    (outcomes : Nat → Except String String) :
    Nat → Nat → List SessionEvent × ListenKeyOutcome
  | _, 0 => ([], ListenKeyOutcome.unreachableReached)
  | attempt, fuel + 1 =>
    let pre := [SessionEvent.reserve account RequestType.GetListenKey,
                SessionEvent.getListenKey attempt]
    match outcomes attempt with
    | Except.ok listen_key => (pre, ListenKeyOutcome.key listen_key)
    | Except.error err =>
        if attempt < MAX_ATTEMPTS_COUNT then
          let rest := receive_listen_key_go account outcomes (attempt + 1) fuel
          (pre ++ SessionEvent.warn attempt err :: rest.1, rest.2)
        else
          (pre, ListenKeyOutcome.panicked attempt err)

/-- `Binance::receive_listen_key` (`exchange_client.rs` lines 174-196):
run the loop from attempt 0 with `MAX_ATTEMPTS_COUNT` iterations available.
Returns the full event trace together with the outcome. -/
def receive_listen_key (account : String)
    (outcomes : Nat → Except String String) :
    List SessionEvent × ListenKeyOutcome :=
  receive_listen_key_go account outcomes 0 MAX_ATTEMPTS_COUNT

/-- Is an event an invocation of `get_listen_key`? -/
def SessionEvent.isGetListenKey : SessionEvent → Bool
  | SessionEvent.getListenKey _ => true
  | _ => false

/-- Scans a trace remembering the previous event: holds when every
`getListenKey` event is immediately preceded by an awaited admission
reservation for `(account, GetListenKey)`. -/
def reservedBefore (account : String) :
    Option SessionEvent → List SessionEvent → Bool
  | _, [] => true
  | prev, e :: rest =>
    (!e.isGetListenKey
      || prev == some (SessionEvent.reserve account RequestType.GetListenKey))
    && reservedBefore account (some e) rest

/-- The mutable Binance client state `ping_listen_key` touches: the stored
listen key (`self.listen_key`, an `RwLock<Option<String>>`; the lock is
modelled away since the embedding is sequential). -/
structure BinanceState where
  listen_key : Option String
  deriving DecidableEq, Repr

/-- Observable steps of `ping_listen_key`: the entry trace log, the
skip-warning when no listen key is stored, the awaited admission reservation,
the renewal request itself, and the success/failure logs after it. -/
inductive PingEvent where
  | traceUpdating (account : String)
  | warnSkip (account : String)
  | reserve (account : String) (kind : RequestType)
  | updateRequest (listen_key : String)
  | traceUpdated
  | warnFailed (err : String)
  deriving DecidableEq, Repr

/-- `Binance::ping_listen_key` (`exchange_client.rs` lines 198-229): log the
entry trace; if the stored listen key is `None`, warn and return; otherwise
await admission for `(account, UpdateListenKey)`, re-read and clone the key
(warn and return if it is now `None` — in this sequential embedding the second
read sees the same state), issue `request_update_listen_key` (oracle
`update_outcome`), and log its success or failure.  Returns the event trace
and the resulting state. -/
def ping_listen_key (account : String) (st : BinanceState)
    (update_outcome : String → Except String Unit) :
    List PingEvent × BinanceState :=
  match st.listen_key with
  | none => ([PingEvent.traceUpdating account, PingEvent.warnSkip account], st)
  | some _ =>
    let pre := [PingEvent.traceUpdating account,
                PingEvent.reserve account RequestType.UpdateListenKey]
    match st.listen_key with
    | none => (pre ++ [PingEvent.warnSkip account], st)
    | some listen_key =>
        match update_outcome listen_key with
        | Except.ok _ =>
            (pre ++ [PingEvent.updateRequest listen_key, PingEvent.traceUpdated], st)
        | Except.error err =>
            (pre ++ [PingEvent.updateRequest listen_key, PingEvent.warnFailed err], st)

/-! ## Connectivity Router: `actor.rs` -/

/-- `WebSocketRole` from `connectivity_manager` (`Main` is the spec's
`Primary`). -/
inductive WebSocketRole where
  | Main
  | Secondary
  deriving DecidableEq, Repr

/-- `WebSocketParams`: wraps a parsed `url::Url`.  The `url` crate is
external, so the parsed URL is represented by the output of the parse oracle
(which may normalize the input string rather than preserve it). -/
structure WebSocketParams where
  url : String
  deriving DecidableEq, Repr

/-- `ExchangeActor` state (`actor.rs` lines 11-16). -/
structure ExchangeActor where
  exchange_id : String
  websocket_host : String
  currency_pairs : List String
  websocket_channels : List String
  deriving DecidableEq, Repr

/-- `ExchangeActor::create_websocket_params` (`actor.rs` lines 33-36):
the configured websocket host concatenated with the given path is fed to
`str::parse::<Url>` (the external `url` crate, oracle `parse_url`; its
`some` output is the parsed/normalized URL), and a parse failure is handled
with `.expect("should be valid url")`, i.e. a panic.  The error type is
`Empty`: the function can only return a value or panic. -/
def create_websocket_params (parse_url : String → Option String)
    (self : ExchangeActor) (ws_path : String) :
    RustOutcome Empty WebSocketParams :=
  match parse_url (self.websocket_host ++ ws_path) with
  | some u => RustOutcome.ok ⟨u⟩
  | none => RustOutcome.panicked "should be valid url"

/-- Modelled from the spec: `Binance::build_ws1_path`, the adapter's
market-data path-building rule, is referenced by `actor.rs` but its body is
not under `src/`.  Per the spec it is a pure function of the instrument list
and channel list; it is modelled as the Binance combined-stream path, one
`pair@channel` stream name per pair/channel combination. -/
def build_ws1_path (currency_pairs : List String)
    (websocket_channels : List String) : String :=
  "/stream?streams="
    ++ String.intercalate "/"
      (currency_pairs.flatMap fun p => websocket_channels.map fun c => p ++ "@" ++ c)

/-- Modelled from the spec: whether the Binance adapter/account combination
reports private-channel support.  The adapter's support-reporting trait is not
under `src/`; the listen-key session machinery in `exchange_client.rs` exists
precisely to serve the private user-data channel, so Binance reports support. -/
def binance_supports_private_channel : Bool := true

/-- The `GetWebSocketParams` message (`actor.rs` line 50). -/
structure GetWebSocketParams where
  role : WebSocketRole
  deriving DecidableEq, Repr

/-- `Handler<GetWebSocketParams> for ExchangeActor` (`actor.rs` lines 56-70):
`Main` resolves to parameters built by `create_websocket_params` from the
host and the adapter's path rule over the configured pairs and channels
(inheriting its URL-parse panic path); `Secondary` returns `None`.  The
result is lifted into `RustOutcome` so the panic inside the `Main` branch
stays observable. -/
def ExchangeActor.handle (parse_url : String → Option String)
    (self : ExchangeActor) (msg : GetWebSocketParams) :
    RustOutcome Empty (Option WebSocketParams) :=
  match msg.role with
  | WebSocketRole.Main =>
      let ws_path := build_ws1_path self.currency_pairs self.websocket_channels
      match create_websocket_params parse_url self ws_path with
      | RustOutcome.ok params => RustOutcome.ok (some params)
      | RustOutcome.err e => e.elim
      | RustOutcome.panicked msg => RustOutcome.panicked msg
  | WebSocketRole.Secondary => RustOutcome.ok none

/-! ## Lemmas about the acquisition loop -/

/-- As long as the loop has at most `MAX_ATTEMPTS_COUNT` iterations left and
the attempt counter accounts for the rest, the explicit `panic!` branch of
`receive_listen_key` can never be the outcome: its guard
`attempt < MAX_ATTEMPTS_COUNT` always holds for the attempts the loop runs. -/
theorem receive_listen_key_go_no_panicked (account : String)
    (outcomes : Nat → Except String String) :
    ∀ (fuel attempt : Nat), attempt + fuel ≤ MAX_ATTEMPTS_COUNT →
      ∀ (a : Nat) (e : String),
        (receive_listen_key_go account outcomes attempt fuel).2
          ≠ ListenKeyOutcome.panicked a e
  | 0, attempt, _, a, e => by
    simp [receive_listen_key_go]
  | fuel + 1, attempt, h, a, e => by
    have hlt : attempt < MAX_ATTEMPTS_COUNT := by
      simp only [MAX_ATTEMPTS_COUNT] at *; omega
    cases houtcome : outcomes attempt with
    | ok k => simp [receive_listen_key_go, houtcome]
    | error err =>
      simp only [receive_listen_key_go, houtcome, hlt, if_true]
      exact receive_listen_key_go_no_panicked account outcomes fuel (attempt + 1)
        (by omega) a e

/-- If the first success of the `get_listen_key` oracle within the remaining
fuel is at relative attempt `i` (all earlier attempts failing), the loop
returns that key. -/
theorem receive_listen_key_go_first_success (account : String)
    (outcomes : Nat → Except String String) :
    ∀ (i fuel attempt : Nat) (k : String),
      attempt + fuel = MAX_ATTEMPTS_COUNT →
      i < fuel →
      (∀ j, j < i → ∃ e, outcomes (attempt + j) = Except.error e) →
      outcomes (attempt + i) = Except.ok k →
      (receive_listen_key_go account outcomes attempt fuel).2 = ListenKeyOutcome.key k
  | 0, fuel, attempt, k, hsum, hlt, _, hok => by
    obtain ⟨fuel', rfl⟩ : ∃ f, fuel = f + 1 := ⟨fuel - 1, by omega⟩
    simp only [Nat.add_zero] at hok
    simp [receive_listen_key_go, hok]
  | i + 1, fuel, attempt, k, hsum, hlt, hfail, hok => by
    obtain ⟨fuel', rfl⟩ : ∃ f, fuel = f + 1 := ⟨fuel - 1, by omega⟩
    obtain ⟨e, he⟩ := hfail 0 (by omega)
    simp only [Nat.add_zero] at he
    have hglt : attempt < MAX_ATTEMPTS_COUNT := by
      simp only [MAX_ATTEMPTS_COUNT] at *; omega
    simp only [receive_listen_key_go, he, hglt, if_true]
    exact receive_listen_key_go_first_success account outcomes i fuel' (attempt + 1) k
      (by omega) (by omega)
      (fun j hj => by
        obtain ⟨e', he'⟩ := hfail (j + 1) (by omega)
        have harith : attempt + 1 + j = attempt + (j + 1) := by omega
        exact ⟨e', by rw [harith]; exact he'⟩)
      (by
        have harith : attempt + 1 + i = attempt + (i + 1) := by omega
        rw [harith]; exact hok)

/-- Every `getListenKey` event in the loop's trace is immediately preceded by
an admission reservation for `(account, GetListenKey)`, whatever preceded the
trace itself (the trace never begins with a `getListenKey` event). -/
theorem receive_listen_key_go_reserved (account : String)
    (outcomes : Nat → Except String String) :
    ∀ (fuel attempt : Nat) (prev : Option SessionEvent),
      reservedBefore account prev
        (receive_listen_key_go account outcomes attempt fuel).1 = true
  | 0, attempt, prev => by
    simp [receive_listen_key_go, reservedBefore]
  | fuel + 1, attempt, prev => by
    cases houtcome : outcomes attempt with
    | ok k =>
      simp [receive_listen_key_go, houtcome, reservedBefore,
        SessionEvent.isGetListenKey]
    | error err =>
      by_cases hlt : attempt < MAX_ATTEMPTS_COUNT
      · simp only [receive_listen_key_go, houtcome, hlt, if_true]
        simp only [List.cons_append, List.nil_append, reservedBefore,
          SessionEvent.isGetListenKey, Bool.not_false, Bool.not_true,
          Bool.true_or, Bool.false_or, beq_self_eq_true, Bool.true_and]
        exact receive_listen_key_go_reserved account outcomes fuel (attempt + 1) _
      · simp [receive_listen_key_go, houtcome, hlt, reservedBefore,
          SessionEvent.isGetListenKey]

/-! ## Claim theorems -/

/-- Claim C1: if all 10 session-acquisition attempts fail, `receive_listen_key`
does NOT end in the unguarded `panic!` branch carrying the last error — the
guard `attempt < MAX_ATTEMPTS_COUNT` holds at every executed attempt
(0 through 9), so that branch is dead code, every failure takes the warn
branch, and the run falls through the loop to `unreachable!()`, a panic that
carries no error.  The first conjunct evaluates the code at the failing input
(all attempts fail); the second shows the fatal error-carrying branch is
unreachable for every outcome sequence. -/
theorem c1_exhaustion_reaches_unreachable :
    (receive_listen_key "Binance_0" (fun _ => Except.error "boom")).2
        = ListenKeyOutcome.unreachableReached
    ∧ ∀ (account : String) (outcomes : Nat → Except String String)
        (a : Nat) (e : String),
        (receive_listen_key account outcomes).2 ≠ ListenKeyOutcome.panicked a e := by
  refine ⟨rfl, fun account outcomes a e => ?_⟩
  exact receive_listen_key_go_no_panicked account outcomes MAX_ATTEMPTS_COUNT 0
    (by omega) a e

/-- Claim C2: if the `get_listen_key` attempt at 0-based index `i < 10`
succeeds with key `k` and every earlier attempt fails, `receive_listen_key`
returns `k` — the earlier failures are not observable in the outcome. -/
theorem c2_first_success_returns_key (account : String)
    (outcomes : Nat → Except String String) (i : Nat) (k : String)
    (hi : i < MAX_ATTEMPTS_COUNT)
    (hfail : ∀ j, j < i → ∃ e, outcomes j = Except.error e)
    (hok : outcomes i = Except.ok k) :
    (receive_listen_key account outcomes).2 = ListenKeyOutcome.key k := by
  have h := receive_listen_key_go_first_success account outcomes i
    MAX_ATTEMPTS_COUNT 0 k (by omega) hi
    (fun j hj => by simpa using hfail j hj) (by simpa using hok)
  simpa [receive_listen_key] using h

/-- Witness for C2: failures on attempts 0-2, success on attempt 3. -/
theorem c2_first_success_returns_key_witness :
    (receive_listen_key "Binance_0"
        (fun n => if n < 3 then Except.error "boom" else Except.ok "LK")).2
      = ListenKeyOutcome.key "LK" :=
  c2_first_success_returns_key "Binance_0"
    (fun n => if n < 3 then Except.error "boom" else Except.ok "LK") 3 "LK"
    (by simp [MAX_ATTEMPTS_COUNT])
    (fun j hj => ⟨"boom", by simp [hj]⟩)
    (by simp)

/-- Claim C3 counterexample: the Binance adapter supports a private channel
(it maintains listen keys for the user-data stream), yet the router answers
`None` to a `Secondary` request for it — contradicting the claim that a
supported private channel yields a non-`None` parameter set. -/
theorem c3_counterexample :
    binance_supports_private_channel = true
    ∧ ExchangeActor.handle (fun s => some s)
        ⟨"Binance_0", "wss://stream.binance.com:9443", ["btcusdt"], ["depth"]⟩
        ⟨WebSocketRole.Secondary⟩ = RustOutcome.ok none :=
  ⟨rfl, rfl⟩

/-- Claim C3 (amended): for every actor state and every URL-parser behaviour,
a `GetWebSocketParams` request with the `Secondary` role returns `None`
unconditionally (and without panicking) — private-channel support is never
consulted. -/
theorem c3_secondary_always_none (parse_url : String → Option String)
    (self : ExchangeActor) :
    ExchangeActor.handle parse_url self ⟨WebSocketRole.Secondary⟩
      = RustOutcome.ok none := rfl

/-- Claim C4 counterexample: on a pure request failure (no payload was ever
returned, so nothing could fail to parse), `get_order_info` and
`get_my_trades` both label the surfaced error with the `ParsingError` kind —
the parsing-failure kind is used for transport-class failures; and
`get_my_trades` labels an actual payload-parsing failure `Unknown`, not
`ParsingError`.  The two kinds are conflated, refuting the claim. -/
theorem c4_counterexample :
    @get_order_info Unit (Except.error "connection refused") (fun _ => ())
        = Except.error
            (ExchangeError.new ExchangeErrorType.ParsingError "connection refused" none)
    ∧ @get_my_trades Unit (Except.error "connection refused") (fun _ => Except.ok [])
        = Except.ok (RequestResult.Error
            (ExchangeError.new ExchangeErrorType.ParsingError "connection refused" none))
    ∧ @get_my_trades Unit (Except.ok ⟨"not json"⟩) (fun _ => Except.error "parse failed")
        = Except.ok (RequestResult.Error (ExchangeError.unknown "not json")) :=
  ⟨rfl, rfl, rfl⟩

/-- Claim C4 (amended): when the underlying request itself fails,
`get_order_info` and `get_my_trades` surface an error of kind `ParsingError`
carrying the stringified request error (the parsing-failure kind is reused
for transport failures); when a returned payload cannot be parsed,
`get_my_trades` surfaces an `Unknown`-kind error carrying the raw payload. -/
theorem c4_error_kinds_as_implemented :
    (∀ (OrderInfo : Type) (e : String) (p : RestRequestOutcome → OrderInfo),
        get_order_info (Except.error e) p
          = Except.error (ExchangeError.new ExchangeErrorType.ParsingError e none))
    ∧ (∀ (OrderTrade : Type) (e : String)
        (p : RestRequestOutcome → Except String (List OrderTrade)),
        get_my_trades (Except.error e) p
          = Except.ok (RequestResult.Error
              (ExchangeError.new ExchangeErrorType.ParsingError e none)))
    ∧ (∀ (OrderTrade : Type) (r : RestRequestOutcome)
        (p : RestRequestOutcome → Except String (List OrderTrade)) (msg : String),
        p r = Except.error msg →
        get_my_trades (Except.ok r) p
          = Except.ok (RequestResult.Error (ExchangeError.unknown r.content))) :=
  ⟨fun _ _ _ => rfl, fun _ _ _ => rfl,
   fun _ r p msg h => by simp [get_my_trades, h]⟩

/-- Witness for the amended C4: a concrete parse failure yields the
`Unknown`-kind error carrying the raw payload. -/
theorem c4_error_kinds_as_implemented_witness :
    @get_my_trades Unit (Except.ok ⟨"payload"⟩) (fun _ => Except.error "bad")
      = Except.ok (RequestResult.Error (ExchangeError.unknown "payload")) :=
  c4_error_kinds_as_implemented.2.2 Unit ⟨"payload"⟩
    (fun _ => Except.error "bad") "bad" rfl

/-- Claim C5 counterexample: an unparseable payload makes both
`close_position` and `get_active_positions` take the `.expect` panic branch —
the panic on payload deserialization is reachable, refuting the claim that
every outcome is returned to the caller. -/
theorem c5_counterexample :
    close_position (Except.ok ⟨"garbage"⟩) (fun _ => none)
      = RustOutcome.panicked
          "Unable to parse response content for get_open_orders request"
    ∧ @get_active_positions Unit Unit (Except.ok ⟨"garbage"⟩) (fun _ => none)
        (fun _ => ())
      = RustOutcome.panicked
          "Unable to parse response content for get_active_positions_core request" :=
  ⟨rfl, rfl⟩

/-- Claim C5 (amended): `close_position` and `get_active_positions` panic
(via `.expect`) on any response payload their deserialization oracle cannot
parse; only a failure of the underlying request is returned to the caller,
as `Err`. -/
theorem c5_unparseable_payload_panics :
    (∀ (r : RestRequestOutcome) (d : String → Option BinanceOrderInfo),
        d r.content = none →
        close_position (Except.ok r) d
          = RustOutcome.panicked
              "Unable to parse response content for get_open_orders request")
    ∧ (∀ (P A : Type) (r : RestRequestOutcome) (d : String → Option (List P))
        (f : P → A),
        d r.content = none →
        get_active_positions (Except.ok r) d f
          = RustOutcome.panicked
              "Unable to parse response content for get_active_positions_core request")
    ∧ (∀ (e : String) (d : String → Option BinanceOrderInfo),
        close_position (Except.error e) d = RustOutcome.err e)
    ∧ (∀ (P A : Type) (e : String) (d : String → Option (List P)) (f : P → A),
        get_active_positions (Except.error e) d f = RustOutcome.err e) :=
  ⟨fun r d h => by simp [close_position, h],
   fun _ _ r d f h => by simp [get_active_positions, h],
   fun _ _ => rfl,
   fun _ _ _ _ _ => rfl⟩

/-- Witness for the amended C5: a concrete unparseable payload panics. -/
theorem c5_unparseable_payload_panics_witness :
    close_position (Except.ok ⟨"not json"⟩) (fun _ => none)
      = RustOutcome.panicked
          "Unable to parse response content for get_open_orders request" :=
  c5_unparseable_payload_panics.1 ⟨"not json"⟩ (fun _ => none) rfl

/-- Claim C6: when the stored listen key is `None`, `ping_listen_key` is a
no-op: its whole trace is the entry log followed by the skip warning (so no
admission reservation and no renewal request occur), and the state is
returned unchanged. -/
theorem c6_ping_no_session_noop (account : String) (st : BinanceState)
    (update_outcome : String → Except String Unit)
    (h : st.listen_key = none) :
    ping_listen_key account st update_outcome
      = ([PingEvent.traceUpdating account, PingEvent.warnSkip account], st) := by
  simp [ping_listen_key, h]

/-- Witness for C6: a state with no listen key. -/
theorem c6_ping_no_session_noop_witness :
    ping_listen_key "Binance_0" ⟨none⟩ (fun _ => Except.ok ())
      = ([PingEvent.traceUpdating "Binance_0", PingEvent.warnSkip "Binance_0"],
         ⟨none⟩) :=
  c6_ping_no_session_noop "Binance_0" ⟨none⟩ (fun _ => Except.ok ()) rfl

/-- Claim C7: `ping_listen_key` never modifies the stored listen key — in
every execution, including failed renewals, the `listen_key` field of the
resulting state equals its value before the call. -/
theorem c7_ping_preserves_listen_key (account : String) (st : BinanceState)
    (update_outcome : String → Except String Unit) :
    (ping_listen_key account st update_outcome).2.listen_key = st.listen_key := by
  cases h : st.listen_key with
  | none => simp [ping_listen_key, h]
  | some v =>
    cases hu : update_outcome v with
    | ok u => simp [ping_listen_key, h, hu]
    | error e => simp [ping_listen_key, h, hu]

/-- Claim C8: in every run of `receive_listen_key`, each `get_listen_key`
invocation (first attempt and every retry) is immediately preceded in the
trace by an awaited admission reservation for `(account, GetListenKey)`. -/
theorem c8_every_attempt_admitted (account : String)
    (outcomes : Nat → Except String String) :
    reservedBefore account none (receive_listen_key account outcomes).1 = true :=
  receive_listen_key_go_reserved account outcomes MAX_ATTEMPTS_COUNT 0 none

/-- Claim C9 counterexample: with a host on which the external URL parser
fails (e.g. `"not a url"`), a `Main` request does not return `Some(params)` —
it takes the `.expect("should be valid url")` panic path, refuting the claim
that the router always returns `Some` for `Main`. -/
theorem c9_counterexample :
    ExchangeActor.handle (fun _ => none)
      ⟨"Binance_0", "not a url", ["btcusdt"], ["depth"]⟩
      ⟨WebSocketRole.Main⟩ = RustOutcome.panicked "should be valid url" := rfl

/-- Claim C9 (amended): a `GetWebSocketParams` request with the `Main`
(Primary) role always feeds the configured websocket host concatenated with
the adapter's market-data path (built from the configured currency pairs and
channel list) to the URL parser; when parsing succeeds the router returns
`Some(params)` whose URL is the parser's output for that concatenation, and
when parsing fails the router panics with `"should be valid url"`. -/
theorem c9_main_resolves_host_and_path :
    (∀ (parse_url : String → Option String) (self : ExchangeActor) (u : String),
        parse_url (self.websocket_host
            ++ build_ws1_path self.currency_pairs self.websocket_channels)
          = some u →
        ExchangeActor.handle parse_url self ⟨WebSocketRole.Main⟩
          = RustOutcome.ok (some ⟨u⟩))
    ∧ (∀ (parse_url : String → Option String) (self : ExchangeActor),
        parse_url (self.websocket_host
            ++ build_ws1_path self.currency_pairs self.websocket_channels)
          = none →
        ExchangeActor.handle parse_url self ⟨WebSocketRole.Main⟩
          = RustOutcome.panicked "should be valid url") :=
  ⟨fun parse_url self u h => by
      simp [ExchangeActor.handle, create_websocket_params, h],
   fun parse_url self h => by
      simp [ExchangeActor.handle, create_websocket_params, h]⟩

/-- Witness for the amended C9: a parser that succeeds and preserves the
string yields `Some` of the host-and-path concatenation. -/
theorem c9_main_resolves_host_and_path_witness :
    ExchangeActor.handle (fun s => some s)
      ⟨"Binance_0", "wss://stream.binance.com:9443", ["btcusdt"], ["depth"]⟩
      ⟨WebSocketRole.Main⟩
      = RustOutcome.ok
          (some ⟨"wss://stream.binance.com:9443/stream?streams=btcusdt@depth"⟩) :=
  c9_main_resolves_host_and_path.1 (fun s => some s)
    ⟨"Binance_0", "wss://stream.binance.com:9443", ["btcusdt"], ["depth"]⟩
    "wss://stream.binance.com:9443/stream?streams=btcusdt@depth" rfl

/-- Claim C10: `get_my_trades` never returns `Err` at its outer `Result`:
for every request outcome and every parse outcome there is a value `r` with
the call returning `Ok r`; all failures live inside that value. -/
theorem c10_get_my_trades_outer_ok (OrderTrade : Type)
    (request_my_trades : Except String RestRequestOutcome)
    (p : RestRequestOutcome → Except String (List OrderTrade)) :
    ∃ r, get_my_trades request_my_trades p = Except.ok r := by
  cases request_my_trades with
  | error e => exact ⟨_, rfl⟩
  | ok resp =>
    cases h : p resp with
    | ok data =>
      exact ⟨RequestResult.Success data, by simp [get_my_trades, h]⟩
    | error e =>
      exact ⟨RequestResult.Error (ExchangeError.unknown resp.content),
        by simp [get_my_trades, h]⟩

end Mmb
